import Mathlib

/-!
Shallow embedding of `src/na.py`, a Streamlit dashboard offering two
unit-root tests (Zivot-Andrews and Phillips-Perron) on an uploaded
tabular dataset.

Modelling conventions:
* Python values are `PyVal`; floats are rationals with an explicit NaN
  constructor (NaN compares false against everything, as in Python).
* A test-result object from the external statistics library is a `PyObj`:
  an association list from attribute names to attributes, where an
  attribute either holds a value or raises on access.
* A dataframe is an index plus named, dtype-tagged columns whose cells are
  `Option PyVal` (`none` is a null/NaN cell).
* Each UI rendering action is a `UIEvent`; an app function returns the
  list of events it renders.  Exceptions inside the `try` blocks are the
  `Option String` component threaded next to the events and are consumed
  by the enclosing handler, which appends the corresponding error events.
-/

inductive PyVal where
  | pyInt (i : Int)
  | pyFloat (q : ℚ)
  | pyNaN
  | pyStr (s : String)
  | pyNone
  | pyDict (d : List (String × PyVal))
  | pyOther

/- Boolean equality on Python values (the nested dict constructor prevents
a derived instance); defined mutually with equality of dict entry lists so
that the recursion stays structural and kernel-reducible. -/
mutual

def pyValBeq : PyVal → PyVal → Bool
  | PyVal.pyInt i, PyVal.pyInt j => i == j
  | PyVal.pyFloat q, PyVal.pyFloat r => q == r
  | PyVal.pyNaN, PyVal.pyNaN => true
  | PyVal.pyStr s, PyVal.pyStr t => s == t
  | PyVal.pyNone, PyVal.pyNone => true
  | PyVal.pyDict d, PyVal.pyDict e => pyDictBeq d e
  | PyVal.pyOther, PyVal.pyOther => true
  | _, _ => false

def pyDictBeq : List (String × PyVal) → List (String × PyVal) → Bool
  | [], [] => true
  | (k, v) :: xs, (k2, v2) :: ys => k == k2 && pyValBeq v v2 && pyDictBeq xs ys
  | _, _ => false

end

theorem pyValBeq_eq : ∀ a b : PyVal, pyValBeq a b = true ↔ a = b := by
  intro a b
  refine pyValBeq.induct
    (fun a b => pyValBeq a b = true ↔ a = b)
    (fun xs ys => pyDictBeq xs ys = true ↔ xs = ys)
    ?_ ?_ ?_ ?_ ?_ ?_ ?_ ?_ ?_ ?_ ?_ a b
  · intro i j; simp [pyValBeq]
  · intro q r; simp [pyValBeq]
  · simp [pyValBeq]
  · intro s t; simp [pyValBeq]
  · simp [pyValBeq]
  · intro d e ih; simp [pyValBeq, ih]
  · simp [pyValBeq]
  · intro t x hInt hFloat hNaN hStr hNone hDict hOther
    cases t <;> cases x <;> simp_all [pyValBeq]
  · simp [pyDictBeq]
  · intro k v xs k2 v2 ys ih1 ih2
    simp only [pyDictBeq, Bool.and_eq_true, beq_iff_eq, ih1, ih2,
      List.cons.injEq, Prod.mk.injEq]
  · intro t x h1 h2
    cases t with
    | nil =>
        cases x with
        | nil => exact (h1 rfl rfl).elim
        | cons q qs => simp [pyDictBeq]
    | cons p ps =>
        cases x with
        | nil => simp [pyDictBeq]
        | cons q qs =>
            obtain ⟨k1, v1⟩ := p
            obtain ⟨k2a, v2a⟩ := q
            exact (h2 k1 v1 ps k2a v2a qs rfl rfl).elim

instance : DecidableEq PyVal := fun a b =>
  decidable_of_iff (pyValBeq a b = true) (pyValBeq_eq a b)

inductive PyAttr where
  | val (v : PyVal)
  | raising
deriving DecidableEq

structure PyObj where
  attrs : List (String × PyAttr)
deriving DecidableEq

/-- Attribute lookup on a Python object: `none` when the attribute is absent. -/
def getattrA (o : PyObj) (a : String) : Option PyAttr :=
  List.lookup a o.attrs

/-- `getattr` that succeeds only when the attribute exists and does not raise. -/
def getattrOk (o : PyObj) (a : String) : Option PyVal :=
  match getattrA o a with
  | some (PyAttr.val v) => some v
  | _ => none

/-- `isinstance(v, (int, float))`; NaN is a float in Python. -/
def isNumber : PyVal → Bool
  | PyVal.pyInt _ => true
  | PyVal.pyFloat _ => true
  | PyVal.pyNaN => true
  | _ => false

/-- Python truthiness. -/
def pyTruthy : PyVal → Bool
  | PyVal.pyInt i => decide (i ≠ 0)
  | PyVal.pyFloat q => decide (q ≠ 0)
  | PyVal.pyNaN => true
  | PyVal.pyStr s => decide (s ≠ "")
  | PyVal.pyNone => false
  | PyVal.pyDict d => !d.isEmpty
  | PyVal.pyOther => true

/-- `v < q` for a Python value against a rational; false for NaN and non-numbers,
as Python comparisons with NaN are false. -/
def pyLtQ (v : PyVal) (q : ℚ) : Bool :=
  match v with
  | PyVal.pyInt i => decide ((i : ℚ) < q)
  | PyVal.pyFloat r => decide (r < q)
  | _ => false

/-- The chained comparison `0 <= bp < n` on a candidate breakpoint value,
combined with the `isinstance(bp, (int, float))` check; false for NaN. -/
def bpAccept (bp : PyVal) (n : Nat) : Bool :=
  match bp with
  | PyVal.pyInt i => decide (0 ≤ i) && decide (i < (n : Int))
  | PyVal.pyFloat q => decide (0 ≤ q) && decide (q < (n : ℚ))
  | _ => false

/-- Python `int(...)` on a numeric value (truncation toward zero for floats). -/
def pyTruncToInt (bp : PyVal) : Int :=
  match bp with
  | PyVal.pyInt i => i
  | PyVal.pyFloat q => if 0 ≤ q then ⌊q⌋ else -⌊-q⌋
  | _ => 0

/-- Rendering of a value into a display string (used for `st.metric` texts). -/
def pyFmt : PyVal → String
  | PyVal.pyInt i => toString i
  | PyVal.pyFloat q => toString q.num ++ "/" ++ toString q.den
  | PyVal.pyNaN => "nan"
  | PyVal.pyStr s => s
  | PyVal.pyNone => "None"
  | PyVal.pyDict _ => "dict"
  | PyVal.pyOther => "object"

/-- Reading a numeric attribute for an f-string format such as
`f-format(za_test.stat, .4f)`: raises (`Except.error`) when the attribute is
missing, raises on access, or is not a number. -/
def attrNum (o : PyObj) (a : String) : Except String PyVal :=
  match getattrA o a with
  | some (PyAttr.val v) =>
      if isNumber v then Except.ok v else Except.error ("unsupported format: " ++ a)
  | some PyAttr.raising => Except.error ("attribute access error: " ++ a)
  | none => Except.error ("object has no attribute " ++ a)

/-- The ordered attribute-name guesses of `get_breakpoint_safe`. -/
def breakpointCandidates : List String :=
  ["breakpoint", "brk", "_breakpoint", "_brk", "break_point", "structural_break", "tb"]

/-- The candidate loop of `get_breakpoint_safe`: the first present,
non-raising attribute whose value is an int or float within
`0 <= bp < series_length` is returned through `int(...)`; everything else
falls through to the `series_length // 2` estimate. -/
def bpLoop (o : PyObj) (n : Nat) : List String → Int
  | [] => ((n / 2 : Nat) : Int)
  | a :: rest =>
      match getattrA o a with
      | some (PyAttr.val bp) =>
          if bpAccept bp n then pyTruncToInt bp else bpLoop o n rest
      | some PyAttr.raising => bpLoop o n rest
      | none => bpLoop o n rest

/-- `get_breakpoint_safe(za_test, series_length)` from `src/na.py`. -/
def get_breakpoint_safe (o : PyObj) (n : Nat) : Int :=
  bpLoop o n breakpointCandidates

/-- The qualification test of `get_critical_values_safe`: the candidate is
returned only when it is a dict that is truthy (non-empty) and all of whose
values are ints or floats; a truthy non-dict raises inside the `try` (on
`.values()`) and a falsy candidate fails the `if`, so both fall through. -/
def cvQualifies : PyVal → Option (List (String × PyVal))
  | PyVal.pyDict d =>
      if !d.isEmpty && d.all (fun p => isNumber p.2) then some d else none
  | _ => none

/-- Method 1: the dict built from `cv_1` / `cv_5` / `cv_10`; building it
raises when any of the three attributes is missing or raises. -/
def cvMethod1 (o : PyObj) : Option PyVal := do
  let a ← getattrOk o "cv_1"
  let b ← getattrOk o "cv_5"
  let c ← getattrOk o "cv_10"
  some (PyVal.pyDict [("1%", a), ("5%", b), ("10%", c)])

/-- Method 2: the `critical_values` attribute. -/
def cvMethod2 (o : PyObj) : Option PyVal := getattrOk o "critical_values"

/-- Method 3: the dict built from `cv1` / `cv5` / `cv10`. -/
def cvMethod3 (o : PyObj) : Option PyVal := do
  let a ← getattrOk o "cv1"
  let b ← getattrOk o "cv5"
  let c ← getattrOk o "cv10"
  some (PyVal.pyDict [("1%", a), ("5%", b), ("10%", c)])

def cvMethods : List (PyObj → Option PyVal) := [cvMethod1, cvMethod2, cvMethod3]

/-- The method loop of `get_critical_values_safe`. -/
def cvLoop (o : PyObj) : List (PyObj → Option PyVal) → Option (List (String × PyVal))
  | [] => none
  | m :: rest =>
      match m o with
      | some cv =>
          match cvQualifies cv with
          | some d => some d
          | none => cvLoop o rest
      | none => cvLoop o rest

/-- `get_critical_values_safe(za_test)` from `src/na.py`; `none` is the
Python `None` return. -/
def get_critical_values_safe (o : PyObj) : Option (List (String × PyVal)) :=
  cvLoop o cvMethods

/- ===================== dataframe model ===================== -/

inductive Dtype where
  | number
  | strObject
  | datetime
  | otherD
deriving DecidableEq

structure Col where
  name : String
  dtype : Dtype
  cells : List (Option PyVal)
deriving DecidableEq

structure DF where
  index : List PyVal
  cols : List Col
deriving DecidableEq

/-- `df.select_dtypes(include=[number]).columns.tolist()`. -/
def numericCols (df : DF) : List String :=
  (df.cols.filter (fun c => decide (c.dtype = Dtype.number))).map Col.name

/-- `df[name]` (column lookup by name; first match). -/
def dfColumn (df : DF) (name : String) : Option Col :=
  df.cols.find? (fun c => decide (c.name = name))

/-- The series `df[name]` as (index value, cell) pairs. -/
def zipSeries (df : DF) (name : String) : List (PyVal × Option PyVal) :=
  match dfColumn df name with
  | some c => df.index.zip c.cells
  | none => []

/-- `.dropna()`: drops null cells and NaN cells. -/
def dropna (l : List (PyVal × Option PyVal)) : List (PyVal × PyVal) :=
  l.filterMap (fun p =>
    match p.2 with
    | some PyVal.pyNaN => none
    | some v => some (p.1, v)
    | none => none)

/-- A Streamlit `selectbox` always returns one of its options; the user
choice is modelled as a natural number reduced modulo the option count. -/
def selectChoice (k : Nat) (opts : List String) : String :=
  opts.getD (k % opts.length) ""

/- ===================== UI events ===================== -/

inductive UIEvent where
  | header (s : String)
  | subheader (s : String)
  | markdown (s : String)
  | sidebarSubheader (s : String)
  | sidebarInfo (s : String)
  | sidebarWarning (s : String)
  | sidebarError (s : String)
  | sidebarSuccess (s : String)
  | selectbox (key : String)
  | numberInput (key : String)
  | button (key : String)
  | checkbox (key : String)
  | infoMsg (s : String)
  | successMsg (s : String)
  | warningMsg (s : String)
  | errorMsg (s : String)
  | metric (label : String) (value : String)
  | tableEv (rows : List (String × PyVal))
  | caption (s : String)
  | chart
  | debugInfo
  | dataframeShown
  | invoke (fn : String) (trend : String) (lags : Option Nat) (series : List (PyVal × PyVal))
  | exceptionShown
deriving DecidableEq

def isInvoke : UIEvent → Bool
  | UIEvent.invoke _ _ _ _ => true
  | _ => false

def isWidget : UIEvent → Bool
  | UIEvent.selectbox _ => true
  | UIEvent.numberInput _ => true
  | UIEvent.button _ => true
  | UIEvent.checkbox _ => true
  | _ => false

/- ===================== message strings ===================== -/

def noNumericMsg : String := "Tidak ada kolom numerik yang ditemukan dalam data."
def tooFewMsg : String :=
  "Data terlalu sedikit untuk hasil yang andal. Minimal 20 observasi diperlukan."
def zaBreakErrMsg : String :=
  "Tidak dapat menentukan breakpoint yang valid. Silakan coba dengan data atau pengaturan yang berbeda."
def zaErrPfx : String := "Terjadi kesalahan saat menjalankan uji Zivot-Andrews: "
def ppErrPfx : String := "Terjadi kesalahan saat menjalankan uji Phillips-Perron: "
def fileErrPfx : String := "Terjadi kesalahan saat memproses file: "
def zaRejectMsg : String :=
  "Tolak Hipotesis Nol pada alpha = 0.05. Data stasioner dengan adanya patahan struktural."
def zaFailMsg : String := "Gagal Tolak Hipotesis Nol pada alpha = 0.05. Data tidak stasioner."
def ppRejectMsg : String := "Tolak Hipotesis Nol pada alpha = 0.05. Data stasioner."
def ppFailMsg : String := "Gagal Tolak Hipotesis Nol pada alpha = 0.05. Data tidak stasioner."
def zaCVWarn : String :=
  "Nilai kritis tidak tersedia. Gunakan Debug Mode untuk melihat atribut yang tersedia."
def ppCVNone : String := "Nilai kritis tidak tersedia."
def ppCVErrWarn : String := "Tidak dapat menampilkan nilai kritis."
def natWarnMsg : String := "Beberapa nilai dalam kolom tidak dapat dikonversi ke tanggal."
def dateOkMsg : String := "Kolom berhasil dijadikan indeks tanggal."
def dateFailMsg : String := "Gagal mengubah kolom tanggal."
def dateSentinel : String := "Tidak menggunakan indeks tanggal"
def noDateColsMsg : String :=
  "Tidak ada kolom tanggal yang terdeteksi. Menggunakan indeks default."
def uploadOkMsg : String := "File berhasil diunggah."
def dataShapeMsg : String := "Informasi ukuran dataset."
def previewTitle : String := "Pratinjau Data"

/- ===================== Zivot-Andrews app ===================== -/

structure ZAConfig where
  columnChoice : Nat
  modelChoice : Nat
  lagMethodChoice : Nat
  maxLags : Nat
  runPressed : Bool
  debugMode : Bool
deriving DecidableEq

def zaModelOptions : List String := ["Intercept", "Trend", "Both"]

def zaLagMethodOptions : List String := ["AIC", "BIC", "t-stat"]

/-- `model_map = dict(Intercept c, Trend t, Both ct)` looked up at the selection. -/
def model_map (s : String) : String :=
  if s = "Intercept" then "c" else if s = "Trend" then "t" else "ct"

/-- `alpha = 0.05` as an exact rational. -/
def alphaQ : ℚ := mkRat 5 100

/-- The conclusion branch `if test.pvalue < alpha` with `alpha = 0.05`. -/
def conclEvent (pv : PyVal) (rejectMsg failMsg : String) : UIEvent :=
  if pyLtQ pv alphaQ then UIEvent.successMsg rejectMsg else UIEvent.warningMsg failMsg

/-- The critical-values section of the Zivot-Andrews result page: a table
when `get_critical_values_safe` found a dict, a warning when it returned None. -/
def zaCritEvents (za : PyObj) : List UIEvent :=
  match get_critical_values_safe za with
  | some d => [UIEvent.tableEv d]
  | none => [UIEvent.warningMsg zaCVWarn]

/-- The `try` body of the Zivot-Andrews flow after the library call
succeeded: the rendered events together with the exception (if any) that
escapes to the enclosing handler. -/
def zaTryEvents (za : PyObj) (series : List (PyVal × PyVal)) (debugMode : Bool) :
    List UIEvent × Option String :=
  let evs0 := UIEvent.checkbox "debug_za" :: (if debugMode then [UIEvent.debugInfo] else [])
  let bi := get_breakpoint_safe za series.length
  if (series.length : Int) ≤ bi then
    (evs0 ++ [UIEvent.errorMsg zaBreakErrMsg], none)
  else
    let bi2 := if (series.length : Int) ≤ bi then series.length - 1 else bi.toNat
    let break_date := (series.map Prod.fst).getD bi2 PyVal.pyNone
    let evs1 := evs0 ++ [UIEvent.subheader "Hasil Uji"]
    match attrNum za "stat" with
    | Except.error e => (evs1, some e)
    | Except.ok sv =>
      let evs2 := evs1 ++ [UIEvent.metric "Statistik Uji" (pyFmt sv)]
      match attrNum za "pvalue" with
      | Except.error e => (evs2, some e)
      | Except.ok pv =>
        let evs3 := evs2 ++
          [UIEvent.metric "P-value" (pyFmt pv),
           UIEvent.metric "Tanggal Patahan" (pyFmt break_date),
           UIEvent.subheader "Kesimpulan Uji",
           conclEvent pv zaRejectMsg zaFailMsg,
           UIEvent.subheader "Nilai Kritis"] ++ zaCritEvents za
        match getattrA za "lags" with
        | some PyAttr.raising => (evs3, some "attribute access error: lags")
        | some (PyAttr.val v) =>
            (evs3 ++ [UIEvent.caption ("Lag yang digunakan dalam model: " ++ pyFmt v),
              UIEvent.header "Visualisasi", UIEvent.chart], none)
        | none =>
            (evs3 ++ [UIEvent.caption "Lag yang digunakan dalam model: N/A",
              UIEvent.header "Visualisasi", UIEvent.chart], none)

/-- The run handler of the Zivot-Andrews flow once the sample-size guard
passed: the `ZivotAndrews(...)` call (recorded as an `invoke` event) and
the surrounding `try`/`except`. -/
def zaRun (arch_model : String) (maxLags : Nat) (debugMode : Bool)
    (series : List (PyVal × PyVal)) (orc : Except String PyObj) : List UIEvent :=
  let inv := UIEvent.invoke "ZivotAndrews" arch_model (some maxLags) series
  match orc with
  | Except.error e => [inv, UIEvent.errorMsg (zaErrPfx ++ e), UIEvent.exceptionShown]
  | Except.ok za =>
      match zaTryEvents za series debugMode with
      | (evs, none) => inv :: evs
      | (evs, some e) =>
          inv :: (evs ++ [UIEvent.errorMsg (zaErrPfx ++ e), UIEvent.exceptionShown])

def zaHdr : List UIEvent :=
  [UIEvent.header "Uji Zivot-Andrews",
   UIEvent.markdown "Uji ini digunakan untuk data time series dengan satu kali patahan struktural.",
   UIEvent.sidebarSubheader "Pengaturan Uji Zivot-Andrews"]

def zaWidgets : List UIEvent :=
  [UIEvent.selectbox "za_column", UIEvent.selectbox "za_model",
   UIEvent.selectbox "za_lag_method", UIEvent.numberInput "za_max_lags",
   UIEvent.button "za_run"]

/-- The column selected in the Zivot-Andrews panel. -/
def zaSelected (df : DF) (cfg : ZAConfig) : String :=
  selectChoice cfg.columnChoice (numericCols df)

/-- `df[selected_column].dropna()` in the Zivot-Andrews run handler. -/
def zaSeriesOf (df : DF) (cfg : ZAConfig) : List (PyVal × PyVal) :=
  dropna (zipSeries df (zaSelected df cfg))

/-- `zivot_andrews_app(df)` from `src/na.py`.  `orc` is the outcome of the
external `ZivotAndrews` call (the library result object or an exception). -/
def zivot_andrews_app (df : DF) (cfg : ZAConfig) (orc : Except String PyObj) :
    List UIEvent :=
  if (numericCols df).isEmpty then zaHdr ++ [UIEvent.errorMsg noNumericMsg]
  else
    let arch_model := model_map (selectChoice cfg.modelChoice zaModelOptions)
    if !cfg.runPressed then zaHdr ++ zaWidgets
    else
      let series_to_test := zaSeriesOf df cfg
      if series_to_test.length < 20 then
        zaHdr ++ zaWidgets ++ [UIEvent.warningMsg tooFewMsg]
      else
        zaHdr ++ zaWidgets ++ zaRun arch_model cfg.maxLags cfg.debugMode series_to_test orc

/- ===================== Phillips-Perron app ===================== -/

structure PPConfig where
  columnChoice : Nat
  trendChoice : Nat
  lags : Nat
  runPressed : Bool
deriving DecidableEq

def ppTrendOptions : List String := ["Constant", "Constant and Trend", "No Trend/Constant"]

/-- `trend_map = dict(Constant c, Constant and Trend ct, No Trend/Constant n)`. -/
def trend_map (s : String) : String :=
  if s = "Constant" then "c" else if s = "Constant and Trend" then "ct" else "n"

/-- `lags_to_use = None if lags == 0 else lags`. -/
def lagsToUse (lags : Nat) : Option Nat :=
  if lags = 0 then none else some lags

/-- The critical-values section of the Phillips-Perron result page (its own
inner `try`): a table for a truthy dict attribute, warnings otherwise. -/
def ppCritEvents (pp : PyObj) : List UIEvent :=
  match getattrA pp "critical_values" with
  | some (PyAttr.val cv) =>
      if pyTruthy cv then
        match cv with
        | PyVal.pyDict d => [UIEvent.tableEv d]
        | _ => [UIEvent.warningMsg ppCVErrWarn]
      else [UIEvent.warningMsg ppCVNone]
  | some PyAttr.raising => [UIEvent.warningMsg ppCVErrWarn]
  | none => [UIEvent.warningMsg ppCVNone]

/-- The `try` body of the Phillips-Perron flow after the library call
succeeded. -/
def ppTryEvents (pp : PyObj) : List UIEvent × Option String :=
  let evs1 := [UIEvent.subheader "Hasil Uji"]
  match attrNum pp "stat" with
  | Except.error e => (evs1, some e)
  | Except.ok sv =>
    let evs2 := evs1 ++ [UIEvent.metric "Statistik Uji" (pyFmt sv)]
    match attrNum pp "pvalue" with
    | Except.error e => (evs2, some e)
    | Except.ok pv =>
      match getattrA pp "lags" with
      | some PyAttr.raising =>
          (evs2 ++ [UIEvent.metric "P-value" (pyFmt pv)], some "attribute access error: lags")
      | some (PyAttr.val v) =>
          (evs2 ++ [UIEvent.metric "P-value" (pyFmt pv),
            UIEvent.metric "Lags Digunakan" (pyFmt v),
            UIEvent.subheader "Kesimpulan Uji",
            conclEvent pv ppRejectMsg ppFailMsg,
            UIEvent.subheader "Nilai Kritis"] ++ ppCritEvents pp ++
            [UIEvent.header "Visualisasi", UIEvent.chart], none)
      | none =>
          (evs2 ++ [UIEvent.metric "P-value" (pyFmt pv),
            UIEvent.metric "Lags Digunakan" "N/A",
            UIEvent.subheader "Kesimpulan Uji",
            conclEvent pv ppRejectMsg ppFailMsg,
            UIEvent.subheader "Nilai Kritis"] ++ ppCritEvents pp ++
            [UIEvent.header "Visualisasi", UIEvent.chart], none)

/-- The run handler of the Phillips-Perron flow once the sample-size guard
passed. -/
def ppRun (arch_trend : String) (lags_to_use : Option Nat)
    (series : List (PyVal × PyVal)) (orc : Except String PyObj) : List UIEvent :=
  let inv := UIEvent.invoke "PhillipsPerron" arch_trend lags_to_use series
  match orc with
  | Except.error e => [inv, UIEvent.errorMsg (ppErrPfx ++ e), UIEvent.exceptionShown]
  | Except.ok pp =>
      match ppTryEvents pp with
      | (evs, none) => inv :: evs
      | (evs, some e) =>
          inv :: (evs ++ [UIEvent.errorMsg (ppErrPfx ++ e), UIEvent.exceptionShown])

def ppHdr : List UIEvent :=
  [UIEvent.header "Uji Phillips-Perron (PP)",
   UIEvent.markdown "Uji ini digunakan untuk menguji stasioneritas pada data time series secara umum.",
   UIEvent.sidebarSubheader "Pengaturan Uji Phillips-Perron"]

def ppWidgets : List UIEvent :=
  [UIEvent.selectbox "pp_column", UIEvent.selectbox "pp_trend",
   UIEvent.numberInput "pp_lags", UIEvent.button "pp_run"]

def ppSelected (df : DF) (cfg : PPConfig) : String :=
  selectChoice cfg.columnChoice (numericCols df)

def ppSeriesOf (df : DF) (cfg : PPConfig) : List (PyVal × PyVal) :=
  dropna (zipSeries df (ppSelected df cfg))

def ppTrendOf (cfg : PPConfig) : String :=
  trend_map (selectChoice cfg.trendChoice ppTrendOptions)

/-- `phillips_perron_app(df)` from `src/na.py`. -/
def phillips_perron_app (df : DF) (cfg : PPConfig) (orc : Except String PyObj) :
    List UIEvent :=
  if (numericCols df).isEmpty then ppHdr ++ [UIEvent.errorMsg noNumericMsg]
  else
    if !cfg.runPressed then ppHdr ++ ppWidgets
    else
      let series_to_test := ppSeriesOf df cfg
      if series_to_test.length < 20 then
        ppHdr ++ ppWidgets ++ [UIEvent.warningMsg tooFewMsg]
      else
        ppHdr ++ ppWidgets ++
          ppRun (ppTrendOf cfg) (lagsToUse cfg.lags) series_to_test orc

/- ===================== top-level file processing ===================== -/

inductive TestChoice where
  | za
  | pp
deriving DecidableEq

structure MainChoices where
  test : TestChoice
  dateChoice : Nat
  zaCfg : ZAConfig
  ppCfg : PPConfig

/-- The environment of external effects: the outcome of parsing the
uploaded file, the date parser behind `pd.to_datetime` (`none` is NaT),
whether the conversion call raises, and the outcomes of the two library
calls. -/
structure Env where
  parseResult : Except String DF
  parseDate : PyVal → Option PyVal
  dateConvRaises : Bool
  zaResult : Except String PyObj
  ppResult : Except String PyObj

/-- Columns offered as date candidates: dtype `datetime64` or `object`. -/
def dateCols (df : DF) : List String :=
  (df.cols.filter (fun c =>
    decide (c.dtype = Dtype.datetime) || decide (c.dtype = Dtype.strObject))).map Col.name

/-- `pd.to_datetime(cells, errors=coerce)`: null stays NaT, an unparseable
value becomes NaT. -/
def coerceDates (parseDate : PyVal → Option PyVal) (cells : List (Option PyVal)) :
    List (Option PyVal) :=
  cells.map (fun c => c.bind parseDate)

/-- The combined effect of `df[date_col] = converted` followed by
`df.set_index(date_col)`: the converted cells become the index (NaT cells
as `pyNone`) and the column leaves the column list. -/
def setIndexDF (df : DF) (colName : String) (converted : List (Option PyVal)) : DF :=
  { index := converted.map (fun o => o.getD PyVal.pyNone),
    cols := df.cols.filter (fun c => decide (c.name ≠ colName)) }

/-- The optional date-index step of the main block: returns the dataframe
after the step and the sidebar events it rendered. -/
def dateIndexStep (env : Env) (choice : Nat) (df : DF) : DF × List UIEvent :=
  let dcols := dateCols df
  if dcols.isEmpty then (df, [UIEvent.sidebarInfo noDateColsMsg])
  else
    let date_col := selectChoice choice (dateSentinel :: dcols)
    let evs0 := [UIEvent.selectbox "date_col"]
    if date_col = dateSentinel then (df, evs0)
    else if env.dateConvRaises then
      (df, evs0 ++ [UIEvent.sidebarError dateFailMsg])
    else
      match dfColumn df date_col with
      | none => (df, evs0)
      | some c =>
          let conv := coerceDates env.parseDate c.cells
          let warnEvs :=
            if conv.any (fun o => o.isNone) then [UIEvent.sidebarWarning natWarnMsg] else []
          (setIndexDF df date_col conv,
           evs0 ++ warnEvs ++ [UIEvent.sidebarSuccess dateOkMsg])

/-- The module-level block guarded by `if uploaded_file is not None`: parse
the file, optionally set the date index, show the preview, and dispatch to
the selected test panel.  Returns the dataframe held for the session (none
when parsing failed) and the rendered events. -/
def mainFlow (env : Env) (ch : MainChoices) : Option DF × List UIEvent :=
  match env.parseResult with
  | Except.error e =>
      (none, [UIEvent.errorMsg (fileErrPfx ++ e), UIEvent.exceptionShown])
  | Except.ok df0 =>
      let upEvs := [UIEvent.successMsg uploadOkMsg, UIEvent.infoMsg dataShapeMsg]
      let stepped := dateIndexStep env ch.dateChoice df0
      let prevEvs := [UIEvent.subheader previewTitle, UIEvent.dataframeShown]
      let testEvs :=
        match ch.test with
        | TestChoice.za => zivot_andrews_app stepped.1 ch.zaCfg env.zaResult
        | TestChoice.pp => phillips_perron_app stepped.1 ch.ppCfg env.ppResult
      (some stepped.1, upEvs ++ stepped.2 ++ prevEvs ++ testEvs)

/- ===================== concrete fixtures ===================== -/

/-- A well-behaved test-result object exposing every attribute the app reads. -/
def objFull : PyObj := PyObj.mk
  [("breakpoint", PyAttr.val (PyVal.pyFloat (mkRat 7 2))),
   ("stat", PyAttr.val (PyVal.pyFloat (mkRat (-5) 1))),
   ("pvalue", PyAttr.val (PyVal.pyFloat (mkRat 1 100))),
   ("critical_values", PyAttr.val (PyVal.pyDict
     [("1%", PyVal.pyFloat (mkRat (-5) 1)), ("5%", PyVal.pyFloat (mkRat (-48) 10)),
      ("10%", PyVal.pyFloat (mkRat (-46) 10))])),
   ("lags", PyAttr.val (PyVal.pyInt 4))]

/-- A result object exposing no attribute at all. -/
def objBare : PyObj := PyObj.mk []

def cells25 : List (Option PyVal) := (List.range 25).map (fun i => some (PyVal.pyInt i))

def df25 : DF :=
  DF.mk ((List.range 25).map (fun i => PyVal.pyInt i)) [Col.mk "y" Dtype.number cells25]

def df3 : DF :=
  DF.mk ((List.range 3).map (fun i => PyVal.pyInt i))
    [Col.mk "y" Dtype.number ((List.range 3).map (fun i => some (PyVal.pyInt i)))]

def dfStr : DF :=
  DF.mk [PyVal.pyInt 0] [Col.mk "label" Dtype.strObject [some (PyVal.pyStr "a")]]

def zaCfgRun : ZAConfig := ZAConfig.mk 0 0 0 5 true false

def ppCfgRun : PPConfig := PPConfig.mk 0 0 0 true

/- ===================== helper lemmas ===================== -/

theorem bpLoop_bounds (o : PyObj) (n : Nat) (hn : 1 ≤ n) :
    ∀ l : List String, 0 ≤ bpLoop o n l ∧ bpLoop o n l < (n : Int) := by
  intro l
  induction l with
  | nil =>
      refine ⟨Int.ofNat_nonneg _, ?_⟩
      have h2 : n / 2 < n := Nat.div_lt_self hn (by norm_num)
      simp only [bpLoop]
      exact_mod_cast h2
  | cons a rest ih =>
      simp only [bpLoop]
      cases hattr : getattrA o a with
      | none => exact ih
      | some attr =>
          cases attr with
          | raising => exact ih
          | val bp =>
              by_cases hacc : bpAccept bp n = true
              · simp only [hacc, if_true]
                cases bp with
                | pyInt i =>
                    simp only [bpAccept, Bool.and_eq_true, decide_eq_true_eq] at hacc
                    simpa [pyTruncToInt] using hacc
                | pyFloat q =>
                    simp only [bpAccept, Bool.and_eq_true, decide_eq_true_eq] at hacc
                    obtain ⟨h1, h2⟩ := hacc
                    simp only [pyTruncToInt, if_pos h1]
                    refine ⟨Int.floor_nonneg.mpr h1, ?_⟩
                    refine Int.floor_lt.mpr ?_
                    exact_mod_cast h2
                | pyNaN => simp [bpAccept] at hacc
                | pyStr s => simp [bpAccept] at hacc
                | pyNone => simp [bpAccept] at hacc
                | pyDict d => simp [bpAccept] at hacc
                | pyOther => simp [bpAccept] at hacc
              · simp only [Bool.not_eq_true] at hacc
                simp only [hacc, if_false]
                exact ih

theorem cvQualifies_some {cv : PyVal} {d : List (String × PyVal)}
    (h : cvQualifies cv = some d) :
    d ≠ [] ∧ d.all (fun p => isNumber p.2) = true := by
  cases cv with
  | pyDict l =>
      simp only [cvQualifies] at h
      split at h
      · next hcond =>
          cases h
          simp only [Bool.and_eq_true] at hcond
          refine ⟨?_, hcond.2⟩
          intro hnil
          subst hnil
          simp at hcond
      · cases h
  | pyInt i => exact Option.noConfusion h
  | pyFloat q => exact Option.noConfusion h
  | pyNaN => exact Option.noConfusion h
  | pyStr s => exact Option.noConfusion h
  | pyNone => exact Option.noConfusion h
  | pyOther => exact Option.noConfusion h

theorem cvLoop_eq (o : PyObj) : ∀ ms : List (PyObj → Option PyVal),
    cvLoop o ms = ((ms.filterMap (fun m => m o)).filterMap cvQualifies).head? := by
  intro ms
  induction ms with
  | nil => rfl
  | cons m rest ih =>
      simp only [cvLoop, List.filterMap_cons]
      cases hm : m o with
      | none => exact ih
      | some cv =>
          simp only [List.filterMap_cons]
          cases hq : cvQualifies cv with
          | none => exact ih
          | some d => rfl

theorem cvLoop_some (o : PyObj) : ∀ (ms : List (PyObj → Option PyVal))
    (d : List (String × PyVal)), cvLoop o ms = some d →
    d ≠ [] ∧ d.all (fun p => isNumber p.2) = true := by
  intro ms
  induction ms with
  | nil => intro d h; simp [cvLoop] at h
  | cons m rest ih =>
      intro d h
      simp only [cvLoop] at h
      cases hm : m o with
      | none =>
          rw [hm] at h
          exact ih d h
      | some cv =>
          rw [hm] at h
          dsimp only at h
          cases hq : cvQualifies cv with
          | none =>
              rw [hq] at h
              dsimp only at h
              exact ih d h
          | some d2 =>
              rw [hq] at h
              dsimp only at h
              cases h
              exact cvQualifies_some hq

/- ===================== C7 ===================== -/

/-- Claim C7: for every result object and every series length of at least 1,
`get_breakpoint_safe` returns an int (its return type) in the range
`[0, series_length)`; consequently the condition of the error branch
`break_index is None or break_index >= len(series_to_test)` in the caller
is false, and using the result to index `series_to_test.index` stays in
bounds. -/
theorem get_breakpoint_safe_bounds (o : PyObj) (n : Nat) (hn : 1 ≤ n) :
    0 ≤ get_breakpoint_safe o n ∧ get_breakpoint_safe o n < (n : Int) ∧
    ¬ ((n : Int) ≤ get_breakpoint_safe o n) ∧
    (get_breakpoint_safe o n).toNat < n := by
  obtain ⟨h1, h2⟩ := bpLoop_bounds o n hn breakpointCandidates
  have h1a : 0 ≤ get_breakpoint_safe o n := h1
  have h2a : get_breakpoint_safe o n < (n : Int) := h2
  exact ⟨h1a, h2a, not_le.mpr h2a, by omega⟩

theorem get_breakpoint_safe_bounds_witness :
    0 ≤ get_breakpoint_safe objBare 5 ∧ get_breakpoint_safe objBare 5 < (5 : Int) ∧
    ¬ ((5 : Int) ≤ get_breakpoint_safe objBare 5) ∧
    (get_breakpoint_safe objBare 5).toNat < 5 :=
  get_breakpoint_safe_bounds objBare 5 (by decide)

/- ===================== C4 ===================== -/

/-- Claim C4: `get_critical_values_safe` returns the first candidate of the
ordered guesses (the dict built from `cv_1` / `cv_5` / `cv_10`, then
`critical_values`, then the dict built from `cv1` / `cv5` / `cv10`) that is
non-empty with every value an int or float; when no candidate qualifies it
returns None, and in that case the Zivot-Andrews page shows a warning
instead of the critical-values table. -/
theorem get_critical_values_safe_spec (o : PyObj) :
    get_critical_values_safe o =
      (([cvMethod1 o, cvMethod2 o, cvMethod3 o].filterMap id).filterMap cvQualifies).head?
    ∧ (∀ d, get_critical_values_safe o = some d →
        d ≠ [] ∧ d.all (fun p => isNumber p.2) = true)
    ∧ (get_critical_values_safe o = none →
        zaCritEvents o = [UIEvent.warningMsg zaCVWarn])
    ∧ (∀ d, get_critical_values_safe o = some d →
        zaCritEvents o = [UIEvent.tableEv d]) := by
  refine ⟨?_, ?_, ?_, ?_⟩
  · rw [get_critical_values_safe, cvLoop_eq]
    simp [cvMethods, List.filterMap_cons]
  · intro d h
    exact cvLoop_some o cvMethods d h
  · intro h
    simp [zaCritEvents, h]
  · intro d h
    simp [zaCritEvents, h]

theorem get_critical_values_safe_spec_witness :
    get_critical_values_safe objBare =
      (([cvMethod1 objBare, cvMethod2 objBare, cvMethod3 objBare].filterMap id).filterMap
        cvQualifies).head?
    ∧ zaCritEvents objBare = [UIEvent.warningMsg zaCVWarn] :=
  ⟨(get_critical_values_safe_spec objBare).1,
   (get_critical_values_safe_spec objBare).2.2.1 (by decide)⟩

/- ===================== C1 ===================== -/

theorem zaRun_has_invoke (am : String) (ml : Nat) (dm : Bool)
    (series : List (PyVal × PyVal)) (orc : Except String PyObj) :
    (zaRun am ml dm series orc).any isInvoke = true := by
  cases orc with
  | error e => simp [zaRun, isInvoke]
  | ok za =>
      simp only [zaRun]
      rcases hte : zaTryEvents za series dm with ⟨evs, e?⟩
      cases e? <;> simp [isInvoke]

theorem ppRun_has_invoke (tr : String) (lg : Option Nat)
    (series : List (PyVal × PyVal)) (orc : Except String PyObj) :
    (ppRun tr lg series orc).any isInvoke = true := by
  cases orc with
  | error e => simp [ppRun, isInvoke]
  | ok pp =>
      simp only [ppRun]
      rcases hte : ppTryEvents pp with ⟨evs, e?⟩
      cases e? <;> simp [isInvoke]

/-- Claim C1: in both test flows, once the run button is pressed and the
selected column has been narrowed by `dropna()`, fewer than 20 remaining
observations means the external test function is never invoked and the
handler ends right after the warning; 20 or more observations mean the test
is invoked. -/
theorem run_guard_min_obs (df : DF) (zcfg : ZAConfig) (pcfg : PPConfig)
    (oz op : Except String PyObj)
    (hz : zcfg.runPressed = true) (hp : pcfg.runPressed = true)
    (hnc : (numericCols df).isEmpty = false) :
    ((zaSeriesOf df zcfg).length < 20 →
      zivot_andrews_app df zcfg oz = zaHdr ++ zaWidgets ++ [UIEvent.warningMsg tooFewMsg]
      ∧ (zivot_andrews_app df zcfg oz).any isInvoke = false)
    ∧ (20 ≤ (zaSeriesOf df zcfg).length →
        (zivot_andrews_app df zcfg oz).any isInvoke = true)
    ∧ ((ppSeriesOf df pcfg).length < 20 →
        phillips_perron_app df pcfg op = ppHdr ++ ppWidgets ++ [UIEvent.warningMsg tooFewMsg]
        ∧ (phillips_perron_app df pcfg op).any isInvoke = false)
    ∧ (20 ≤ (ppSeriesOf df pcfg).length →
        (phillips_perron_app df pcfg op).any isInvoke = true) := by
  refine ⟨?_, ?_, ?_, ?_⟩
  · intro hlen
    have heq : zivot_andrews_app df zcfg oz =
        zaHdr ++ zaWidgets ++ [UIEvent.warningMsg tooFewMsg] := by
      simp [zivot_andrews_app, hnc, hz, if_pos hlen]
    refine ⟨heq, ?_⟩
    rw [heq]
    simp [zaHdr, zaWidgets, isInvoke]
  · intro hlen
    have heq : zivot_andrews_app df zcfg oz =
        zaHdr ++ zaWidgets ++
          zaRun (model_map (selectChoice zcfg.modelChoice zaModelOptions))
            zcfg.maxLags zcfg.debugMode (zaSeriesOf df zcfg) oz := by
      simp [zivot_andrews_app, hnc, hz, if_neg (Nat.not_lt.mpr hlen)]
    rw [heq]
    simp [List.any_append, zaRun_has_invoke]
  · intro hlen
    have heq : phillips_perron_app df pcfg op =
        ppHdr ++ ppWidgets ++ [UIEvent.warningMsg tooFewMsg] := by
      simp [phillips_perron_app, hnc, hp, if_pos hlen]
    refine ⟨heq, ?_⟩
    rw [heq]
    simp [ppHdr, ppWidgets, isInvoke]
  · intro hlen
    have heq : phillips_perron_app df pcfg op =
        ppHdr ++ ppWidgets ++
          ppRun (ppTrendOf pcfg) (lagsToUse pcfg.lags) (ppSeriesOf df pcfg) op := by
      simp [phillips_perron_app, hnc, hp, if_neg (Nat.not_lt.mpr hlen)]
    rw [heq]
    simp [List.any_append, ppRun_has_invoke]

theorem run_guard_min_obs_witness :
    (zivot_andrews_app df3 zaCfgRun (Except.ok objFull) =
        zaHdr ++ zaWidgets ++ [UIEvent.warningMsg tooFewMsg]
      ∧ (zivot_andrews_app df3 zaCfgRun (Except.ok objFull)).any isInvoke = false)
    ∧ (zivot_andrews_app df25 zaCfgRun (Except.ok objFull)).any isInvoke = true
    ∧ (phillips_perron_app df3 ppCfgRun (Except.ok objFull) =
        ppHdr ++ ppWidgets ++ [UIEvent.warningMsg tooFewMsg]
      ∧ (phillips_perron_app df3 ppCfgRun (Except.ok objFull)).any isInvoke = false)
    ∧ (phillips_perron_app df25 ppCfgRun (Except.ok objFull)).any isInvoke = true :=
  ⟨(run_guard_min_obs df3 zaCfgRun ppCfgRun (Except.ok objFull) (Except.ok objFull)
      rfl rfl (by decide)).1 (by decide),
   (run_guard_min_obs df25 zaCfgRun ppCfgRun (Except.ok objFull) (Except.ok objFull)
      rfl rfl (by decide)).2.1 (by decide),
   (run_guard_min_obs df3 zaCfgRun ppCfgRun (Except.ok objFull) (Except.ok objFull)
      rfl rfl (by decide)).2.2.1 (by decide),
   (run_guard_min_obs df25 zaCfgRun ppCfgRun (Except.ok objFull) (Except.ok objFull)
      rfl rfl (by decide)).2.2.2 (by decide)⟩

/- ===================== C2 ===================== -/

theorem noNumeric_nil (df : DF) (h : ∀ c ∈ df.cols, c.dtype ≠ Dtype.number) :
    numericCols df = [] := by
  simp only [numericCols, List.map_eq_nil_iff, List.filter_eq_nil_iff]
  intro c hc
  simpa using h c hc

/-- Claim C2: when the uploaded dataframe has no column of numeric dtype,
each test panel renders only its headers and the error message, so no
column selector, test-configuration widget, run button, or test invocation
ever appears. -/
theorem no_numeric_no_panel (df : DF) (zcfg : ZAConfig) (pcfg : PPConfig)
    (oz op : Except String PyObj)
    (h : ∀ c ∈ df.cols, c.dtype ≠ Dtype.number) :
    zivot_andrews_app df zcfg oz = zaHdr ++ [UIEvent.errorMsg noNumericMsg]
    ∧ phillips_perron_app df pcfg op = ppHdr ++ [UIEvent.errorMsg noNumericMsg]
    ∧ (zivot_andrews_app df zcfg oz).any isWidget = false
    ∧ (zivot_andrews_app df zcfg oz).any isInvoke = false
    ∧ (phillips_perron_app df pcfg op).any isWidget = false
    ∧ (phillips_perron_app df pcfg op).any isInvoke = false := by
  have hnil : numericCols df = [] := noNumeric_nil df h
  have hza : zivot_andrews_app df zcfg oz = zaHdr ++ [UIEvent.errorMsg noNumericMsg] := by
    simp [zivot_andrews_app, hnil]
  have hpp : phillips_perron_app df pcfg op = ppHdr ++ [UIEvent.errorMsg noNumericMsg] := by
    simp [phillips_perron_app, hnil]
  refine ⟨hza, hpp, ?_, ?_, ?_, ?_⟩ <;>
    first
      | (rw [hza]; simp [zaHdr, isWidget, isInvoke])
      | (rw [hpp]; simp [ppHdr, isWidget, isInvoke])

theorem no_numeric_no_panel_witness :
    zivot_andrews_app dfStr zaCfgRun (Except.ok objFull) =
      zaHdr ++ [UIEvent.errorMsg noNumericMsg]
    ∧ phillips_perron_app dfStr ppCfgRun (Except.ok objFull) =
      ppHdr ++ [UIEvent.errorMsg noNumericMsg]
    ∧ (zivot_andrews_app dfStr zaCfgRun (Except.ok objFull)).any isWidget = false
    ∧ (zivot_andrews_app dfStr zaCfgRun (Except.ok objFull)).any isInvoke = false
    ∧ (phillips_perron_app dfStr ppCfgRun (Except.ok objFull)).any isWidget = false
    ∧ (phillips_perron_app dfStr ppCfgRun (Except.ok objFull)).any isInvoke = false :=
  no_numeric_no_panel dfStr zaCfgRun ppCfgRun (Except.ok objFull) (Except.ok objFull)
    (by decide)

/- ===================== C6 ===================== -/

theorem getD_mem_of_lt {α : Type} (dflt : α) :
    ∀ (l : List α) (n : Nat), n < l.length → l.getD n dflt ∈ l := by
  intro l
  induction l with
  | nil => intro n h; simp at h
  | cons a rest ih =>
      intro n h
      cases n with
      | zero => simp [List.getD]
      | succ m =>
          have hm : m < rest.length := by simpa using h
          have := ih m hm
          simp only [List.getD] at this ⊢
          simpa using Or.inr this

theorem selectChoice_mem (l : List String) (k : Nat) (h : l ≠ []) :
    selectChoice k l ∈ l := by
  have hpos : 0 < l.length := List.length_pos.mpr h
  exact getD_mem_of_lt "" l (k % l.length) (Nat.mod_lt _ hpos)

theorem find_name_nodup : ∀ (cols : List Col) (c0 : Col),
    (cols.map Col.name).Nodup → c0 ∈ cols →
    cols.find? (fun c => decide (c.name = c0.name)) = some c0 := by
  intro cols
  induction cols with
  | nil => intro c0 _ h; simp at h
  | cons c cs ih =>
      intro c0 hnd hmem
      simp only [List.map_cons, List.nodup_cons] at hnd
      rcases List.mem_cons.mp hmem with rfl | hmem2
      · simp [List.find?]
      · have hne : decide (c.name = c0.name) = false := by
          refine decide_eq_false ?_
          intro he
          exact hnd.1 (he ▸ List.mem_map_of_mem Col.name hmem2)
        simp only [List.find?_cons, hne]
        exact ih c0 hnd.2 hmem2

/-- Claim C6: the column selector of each panel offers exactly the columns
of numeric dtype; any offered name resolves (under distinct column names)
to a numeric column, the selection is always one of the offered names, and
the series each run handler tests is `dropna()` of exactly that selected
column. -/
theorem numeric_selector_invariant (df : DF) (k : Nat)
    (hne : numericCols df ≠ [])
    (hnd : (df.cols.map Col.name).Nodup) :
    selectChoice k (numericCols df) ∈ numericCols df
    ∧ (∀ nm ∈ numericCols df, ∃ c, dfColumn df nm = some c ∧ c.dtype = Dtype.number)
    ∧ (∀ zcfg : ZAConfig, zcfg.columnChoice = k →
        zaSeriesOf df zcfg = dropna (zipSeries df (selectChoice k (numericCols df))))
    ∧ (∀ pcfg : PPConfig, pcfg.columnChoice = k →
        ppSeriesOf df pcfg = dropna (zipSeries df (selectChoice k (numericCols df)))) := by
  refine ⟨selectChoice_mem _ k hne, ?_, ?_, ?_⟩
  · intro nm hmem
    simp only [numericCols, List.mem_map] at hmem
    obtain ⟨c0, hc0mem, hc0name⟩ := hmem
    have hfil := List.mem_filter.mp hc0mem
    refine ⟨c0, ?_, by simpa using hfil.2⟩
    rw [dfColumn]
    rw [← hc0name]
    exact find_name_nodup df.cols c0 hnd hfil.1
  · intro zcfg hk
    simp [zaSeriesOf, zaSelected, hk]
  · intro pcfg hk
    simp [ppSeriesOf, ppSelected, hk]

theorem numeric_selector_invariant_witness :
    selectChoice 0 (numericCols df25) ∈ numericCols df25
    ∧ (∃ c, dfColumn df25 "y" = some c ∧ c.dtype = Dtype.number)
    ∧ zaSeriesOf df25 zaCfgRun = dropna (zipSeries df25 (selectChoice 0 (numericCols df25))) :=
  ⟨(numeric_selector_invariant df25 0 (by decide) (by decide)).1,
   (numeric_selector_invariant df25 0 (by decide) (by decide)).2.1 "y" (by decide),
   (numeric_selector_invariant df25 0 (by decide) (by decide)).2.2.1 zaCfgRun rfl⟩

/- ===================== C10 ===================== -/

/-- Claim C10: in the Phillips-Perron flow, the lag input 0 is translated to
`lags=None` (automatic selection) before `PhillipsPerron` is called, and any
positive lag input is passed through unchanged; the invocation the run
handler performs carries exactly this translated value. -/
theorem pp_lag_translation (df : DF) (cfg : PPConfig) (orc : Except String PyObj)
    (h1 : cfg.runPressed = true)
    (h2 : (numericCols df).isEmpty = false)
    (h3 : ¬ (ppSeriesOf df cfg).length < 20) :
    UIEvent.invoke "PhillipsPerron" (ppTrendOf cfg) (lagsToUse cfg.lags) (ppSeriesOf df cfg)
      ∈ phillips_perron_app df cfg orc
    ∧ (cfg.lags = 0 → lagsToUse cfg.lags = none)
    ∧ (0 < cfg.lags → lagsToUse cfg.lags = some cfg.lags) := by
  refine ⟨?_, ?_, ?_⟩
  · have heq : phillips_perron_app df cfg orc =
        ppHdr ++ ppWidgets ++
          ppRun (ppTrendOf cfg) (lagsToUse cfg.lags) (ppSeriesOf df cfg) orc := by
      simp [phillips_perron_app, h1, h2, if_neg h3]
    rw [heq]
    have hmem : UIEvent.invoke "PhillipsPerron" (ppTrendOf cfg) (lagsToUse cfg.lags)
        (ppSeriesOf df cfg) ∈
        ppRun (ppTrendOf cfg) (lagsToUse cfg.lags) (ppSeriesOf df cfg) orc := by
      cases orc with
      | error e => simp [ppRun]
      | ok pp =>
          simp only [ppRun]
          rcases hte : ppTryEvents pp with ⟨evs, e?⟩
          cases e? <;> simp
    simp [List.mem_append, hmem]
  · intro h0; simp [lagsToUse, h0]
  · intro h0
    have : cfg.lags ≠ 0 := Nat.pos_iff_ne_zero.mp h0
    simp [lagsToUse, this]

theorem pp_lag_translation_witness :
    UIEvent.invoke "PhillipsPerron" (ppTrendOf ppCfgRun) (lagsToUse ppCfgRun.lags)
      (ppSeriesOf df25 ppCfgRun) ∈ phillips_perron_app df25 ppCfgRun (Except.ok objFull)
    ∧ lagsToUse ppCfgRun.lags = none :=
  ⟨(pp_lag_translation df25 ppCfgRun (Except.ok objFull) rfl (by decide) (by decide)).1,
   (pp_lag_translation df25 ppCfgRun (Except.ok objFull) rfl (by decide) (by decide)).2.1 rfl⟩

/- ===================== C3 ===================== -/

/-- Like `objFull` but with a large p-value; statistic and critical values
are identical. -/
def objHighP : PyObj := PyObj.mk
  [("breakpoint", PyAttr.val (PyVal.pyFloat (mkRat 7 2))),
   ("stat", PyAttr.val (PyVal.pyFloat (mkRat (-5) 1))),
   ("pvalue", PyAttr.val (PyVal.pyFloat (mkRat 9 10))),
   ("critical_values", PyAttr.val (PyVal.pyDict
     [("1%", PyVal.pyFloat (mkRat (-5) 1)), ("5%", PyVal.pyFloat (mkRat (-48) 10)),
      ("10%", PyVal.pyFloat (mkRat (-46) 10))])),
   ("lags", PyAttr.val (PyVal.pyInt 4))]

/-- Claim C3 counterexample: two result objects with the same test statistic
and the same extracted critical values produce opposite conclusions, so the
rejection decision is not a function of the statistic and the critical
values; the code decides on the p-value. -/
theorem decision_not_by_critical_values :
    getattrA objFull "stat" = getattrA objHighP "stat"
    ∧ get_critical_values_safe objFull = get_critical_values_safe objHighP
    ∧ UIEvent.successMsg zaRejectMsg ∈ zivot_andrews_app df25 zaCfgRun (Except.ok objFull)
    ∧ UIEvent.successMsg zaRejectMsg ∉ zivot_andrews_app df25 zaCfgRun (Except.ok objHighP)
    ∧ UIEvent.warningMsg zaFailMsg ∈ zivot_andrews_app df25 zaCfgRun (Except.ok objHighP) := by
  decide

theorem conclEvent_mem_zaTryEvents (za : PyObj) (series : List (PyVal × PyVal)) (dm : Bool)
    (sv pv : PyVal)
    (hs : attrNum za "stat" = Except.ok sv)
    (hp : attrNum za "pvalue" = Except.ok pv)
    (hn : 1 ≤ series.length) :
    conclEvent pv zaRejectMsg zaFailMsg ∈ (zaTryEvents za series dm).1 := by
  have hb := (bpLoop_bounds za series.length hn breakpointCandidates).2
  have hguard : ¬ ((series.length : Int) ≤ get_breakpoint_safe za series.length) :=
    not_le.mpr hb
  simp only [zaTryEvents]
  rw [if_neg hguard]
  rw [hs, hp]
  rcases hla : getattrA za "lags" with _ | attr
  · simp
  · cases attr with
    | val v => simp
    | raising => simp

theorem conclEvent_mem_ppTryEvents (pp : PyObj) (sv pv : PyVal)
    (hs : attrNum pp "stat" = Except.ok sv)
    (hp : attrNum pp "pvalue" = Except.ok pv)
    (hl : getattrA pp "lags" ≠ some PyAttr.raising) :
    conclEvent pv ppRejectMsg ppFailMsg ∈ (ppTryEvents pp).1 := by
  simp only [ppTryEvents]
  rw [hs, hp]
  rcases hla : getattrA pp "lags" with _ | attr
  · simp
  · cases attr with
    | val v => simp
    | raising => exact absurd hla hl

/-- Claim C3 as amended: for both tests the decision to reject the null
hypothesis is made by comparing the p-value of the result object against
the fixed significance level alpha = 0.05; whenever a run reaches its
conclusion section, the emitted conclusion event is the success (reject)
message exactly when pvalue < 0.05, independently of the critical values. -/
theorem decision_by_pvalue (df : DF) (zcfg : ZAConfig) (pcfg : PPConfig)
    (za pp : PyObj) (svz pvz svp pvp : PyVal)
    (hz1 : zcfg.runPressed = true) (hp1 : pcfg.runPressed = true)
    (hnc : (numericCols df).isEmpty = false)
    (hlz : ¬ (zaSeriesOf df zcfg).length < 20)
    (hlp : ¬ (ppSeriesOf df pcfg).length < 20)
    (hsz : attrNum za "stat" = Except.ok svz)
    (hpz : attrNum za "pvalue" = Except.ok pvz)
    (hsp : attrNum pp "stat" = Except.ok svp)
    (hpp : attrNum pp "pvalue" = Except.ok pvp)
    (hlag : getattrA pp "lags" ≠ some PyAttr.raising) :
    conclEvent pvz zaRejectMsg zaFailMsg ∈ zivot_andrews_app df zcfg (Except.ok za)
    ∧ conclEvent pvp ppRejectMsg ppFailMsg ∈ phillips_perron_app df pcfg (Except.ok pp)
    ∧ (∀ pv r f, conclEvent pv r f = UIEvent.successMsg r ↔ pyLtQ pv alphaQ = true) := by
  refine ⟨?_, ?_, ?_⟩
  · have hmemz := conclEvent_mem_zaTryEvents za (zaSeriesOf df zcfg) zcfg.debugMode
      svz pvz hsz hpz (by omega)
    have heq : zivot_andrews_app df zcfg (Except.ok za) =
        zaHdr ++ zaWidgets ++
          zaRun (model_map (selectChoice zcfg.modelChoice zaModelOptions))
            zcfg.maxLags zcfg.debugMode (zaSeriesOf df zcfg) (Except.ok za) := by
      simp [zivot_andrews_app, hnc, hz1, if_neg hlz]
    rw [heq]
    simp only [zaRun]
    rcases hte : zaTryEvents za (zaSeriesOf df zcfg) zcfg.debugMode with ⟨evs, e?⟩
    rw [hte] at hmemz
    cases e? <;> simp_all
  · have hmemp := conclEvent_mem_ppTryEvents pp svp pvp hsp hpp hlag
    have heq : phillips_perron_app df pcfg (Except.ok pp) =
        ppHdr ++ ppWidgets ++
          ppRun (ppTrendOf pcfg) (lagsToUse pcfg.lags) (ppSeriesOf df pcfg)
            (Except.ok pp) := by
      simp [phillips_perron_app, hnc, hp1, if_neg hlp]
    rw [heq]
    simp only [ppRun]
    rcases hte : ppTryEvents pp with ⟨evs, e?⟩
    rw [hte] at hmemp
    cases e? <;> simp_all
  · intro pv r f
    constructor
    · intro h
      by_contra hlt
      simp only [Bool.not_eq_true] at hlt
      simp [conclEvent, hlt] at h
    · intro h
      simp [conclEvent, h]

theorem decision_by_pvalue_witness :
    conclEvent (PyVal.pyFloat (mkRat 1 100)) zaRejectMsg zaFailMsg
      ∈ zivot_andrews_app df25 zaCfgRun (Except.ok objFull)
    ∧ conclEvent (PyVal.pyFloat (mkRat 1 100)) ppRejectMsg ppFailMsg
      ∈ phillips_perron_app df25 ppCfgRun (Except.ok objFull) :=
  ⟨(decision_by_pvalue df25 zaCfgRun ppCfgRun objFull objFull
      (PyVal.pyFloat (mkRat (-5) 1)) (PyVal.pyFloat (mkRat 1 100))
      (PyVal.pyFloat (mkRat (-5) 1)) (PyVal.pyFloat (mkRat 1 100))
      rfl rfl (by decide) (by decide) (by decide)
      rfl rfl rfl rfl (by decide)).1,
   (decision_by_pvalue df25 zaCfgRun ppCfgRun objFull objFull
      (PyVal.pyFloat (mkRat (-5) 1)) (PyVal.pyFloat (mkRat 1 100))
      (PyVal.pyFloat (mkRat (-5) 1)) (PyVal.pyFloat (mkRat 1 100))
      rfl rfl (by decide) (by decide) (by decide)
      rfl rfl rfl rfl (by decide)).2.1⟩

/- ===================== C5 ===================== -/

/-- Claim C5: every failure is caught and surfaced inline.  A file-parse
error makes the main block render exactly the error pair; an exception from
either library call is surfaced as the inline error of the respective
handler; an exception escaping a `try` body (attribute reads on the result
object) is appended as the handler error events; a date-conversion
exception is surfaced as a sidebar error.  All flows are total functions
into event lists, so no exception propagates. -/
theorem failures_surfaced (env : Env) (ch : MainChoices) (df : DF)
    (zcfg : ZAConfig) (pcfg : PPConfig) (e : String) (za pp : PyObj) :
    (env.parseResult = Except.error e →
      mainFlow env ch = (none, [UIEvent.errorMsg (fileErrPfx ++ e), UIEvent.exceptionShown]))
    ∧ (zcfg.runPressed = true → (numericCols df).isEmpty = false →
        ¬ (zaSeriesOf df zcfg).length < 20 →
        UIEvent.errorMsg (zaErrPfx ++ e) ∈ zivot_andrews_app df zcfg (Except.error e))
    ∧ (pcfg.runPressed = true → (numericCols df).isEmpty = false →
        ¬ (ppSeriesOf df pcfg).length < 20 →
        UIEvent.errorMsg (ppErrPfx ++ e) ∈ phillips_perron_app df pcfg (Except.error e))
    ∧ (∀ (am : String) (ml : Nat) (dm : Bool) (series : List (PyVal × PyVal))
        (evs : List UIEvent), zaTryEvents za series dm = (evs, some e) →
        zaRun am ml dm series (Except.ok za) =
          UIEvent.invoke "ZivotAndrews" am (some ml) series ::
            (evs ++ [UIEvent.errorMsg (zaErrPfx ++ e), UIEvent.exceptionShown]))
    ∧ (∀ (tr : String) (lg : Option Nat) (series : List (PyVal × PyVal))
        (evs : List UIEvent), ppTryEvents pp = (evs, some e) →
        ppRun tr lg series (Except.ok pp) =
          UIEvent.invoke "PhillipsPerron" tr lg series ::
            (evs ++ [UIEvent.errorMsg (ppErrPfx ++ e), UIEvent.exceptionShown]))
    ∧ (env.dateConvRaises = true → ∀ (df0 : DF) (choice : Nat),
        (dateCols df0).isEmpty = false →
        selectChoice choice (dateSentinel :: dateCols df0) ≠ dateSentinel →
        UIEvent.sidebarError dateFailMsg ∈ (dateIndexStep env choice df0).2) := by
  refine ⟨?_, ?_, ?_, ?_, ?_, ?_⟩
  · intro hp
    simp [mainFlow, hp]
  · intro h1 h2 h3
    have heq : zivot_andrews_app df zcfg (Except.error e) =
        zaHdr ++ zaWidgets ++
          zaRun (model_map (selectChoice zcfg.modelChoice zaModelOptions))
            zcfg.maxLags zcfg.debugMode (zaSeriesOf df zcfg) (Except.error e) := by
      simp [zivot_andrews_app, h1, h2, if_neg h3]
    rw [heq]
    simp [zaRun]
  · intro h1 h2 h3
    have heq : phillips_perron_app df pcfg (Except.error e) =
        ppHdr ++ ppWidgets ++
          ppRun (ppTrendOf pcfg) (lagsToUse pcfg.lags) (ppSeriesOf df pcfg)
            (Except.error e) := by
      simp [phillips_perron_app, h1, h2, if_neg h3]
    rw [heq]
    simp [ppRun]
  · intro am ml dm series evs hte
    simp [zaRun, hte]
  · intro tr lg series evs hte
    simp [ppRun, hte]
  · intro hr df0 choice h1 h2
    simp [dateIndexStep, h1, if_neg h2, hr]

/-- An environment whose file parse fails. -/
def envParseFail : Env :=
  Env.mk (Except.error "bad csv") (fun _ => none) false
    (Except.error "za boom") (Except.error "pp boom")

def mainChoicesZA : MainChoices := MainChoices.mk TestChoice.za 0 zaCfgRun ppCfgRun

theorem failures_surfaced_witness :
    mainFlow envParseFail mainChoicesZA =
      (none, [UIEvent.errorMsg (fileErrPfx ++ "bad csv"), UIEvent.exceptionShown])
    ∧ UIEvent.errorMsg (zaErrPfx ++ "za boom")
        ∈ zivot_andrews_app df25 zaCfgRun (Except.error "za boom")
    ∧ UIEvent.errorMsg (ppErrPfx ++ "pp boom")
        ∈ phillips_perron_app df25 ppCfgRun (Except.error "pp boom") :=
  ⟨(failures_surfaced envParseFail mainChoicesZA df25 zaCfgRun ppCfgRun "bad csv"
      objBare objBare).1 rfl,
   (failures_surfaced envParseFail mainChoicesZA df25 zaCfgRun ppCfgRun "za boom"
      objBare objBare).2.1 rfl (by decide) (by decide),
   (failures_surfaced envParseFail mainChoicesZA df25 zaCfgRun ppCfgRun "pp boom"
      objBare objBare).2.2.1 rfl (by decide) (by decide)⟩

/- ===================== C8 ===================== -/

/-- Claim C8: when the user opts to use a chosen date column as the index,
the column is coerced cell by cell to datetime with unparseable values
becoming NaT (`none`); a sidebar warning appears exactly when a NaT is
present; the converted column becomes the dataframe index and leaves the
column list; an exception in the conversion is caught and surfaced as a
sidebar error with the dataframe left unchanged. -/
theorem date_index_step_spec (env : Env) (choice : Nat) (df : DF) (c : Col)
    (h1 : (dateCols df).isEmpty = false)
    (h2 : selectChoice choice (dateSentinel :: dateCols df) ≠ dateSentinel)
    (hc : dfColumn df (selectChoice choice (dateSentinel :: dateCols df)) = some c) :
    (env.dateConvRaises = true →
      dateIndexStep env choice df =
        (df, [UIEvent.selectbox "date_col", UIEvent.sidebarError dateFailMsg]))
    ∧ (env.dateConvRaises = false →
        dateIndexStep env choice df =
          (setIndexDF df (selectChoice choice (dateSentinel :: dateCols df))
             (coerceDates env.parseDate c.cells),
           [UIEvent.selectbox "date_col"] ++
             (if (coerceDates env.parseDate c.cells).any (fun o => o.isNone)
              then [UIEvent.sidebarWarning natWarnMsg] else []) ++
             [UIEvent.sidebarSuccess dateOkMsg]))
    ∧ coerceDates env.parseDate c.cells =
        c.cells.map (fun cell => cell.bind env.parseDate) := by
  refine ⟨?_, ?_, rfl⟩
  · intro hr
    simp [dateIndexStep, h1, if_neg h2, hr]
  · intro hr
    simp [dateIndexStep, h1, if_neg h2, hr, hc]

/-- A date-bearing dataframe: one object-dtype column and one numeric one. -/
def dfDate : DF :=
  DF.mk [PyVal.pyInt 0, PyVal.pyInt 1]
    [Col.mk "t" Dtype.strObject [some (PyVal.pyStr "2020-01"), some (PyVal.pyStr "oops")],
     Col.mk "y" Dtype.number [some (PyVal.pyInt 5), some (PyVal.pyInt 6)]]

def colDate : Col :=
  Col.mk "t" Dtype.strObject [some (PyVal.pyStr "2020-01"), some (PyVal.pyStr "oops")]

/-- A date parser that understands exactly one literal. -/
def envDate : Env :=
  Env.mk (Except.ok dfDate)
    (fun v => match v with
      | PyVal.pyStr "2020-01" => some PyVal.pyOther
      | _ => none)
    false (Except.ok objFull) (Except.ok objFull)

theorem date_index_step_spec_witness :
    dateIndexStep envDate 1 dfDate =
      (setIndexDF dfDate (selectChoice 1 (dateSentinel :: dateCols dfDate))
         (coerceDates envDate.parseDate colDate.cells),
       [UIEvent.selectbox "date_col"] ++
         (if (coerceDates envDate.parseDate colDate.cells).any (fun o => o.isNone)
          then [UIEvent.sidebarWarning natWarnMsg] else []) ++
         [UIEvent.sidebarSuccess dateOkMsg]) :=
  (date_index_step_spec envDate 1 dfDate colDate (by decide) (by decide) rfl).2.1 rfl

/- ===================== C9 ===================== -/

def exceptToOption : Except String DF → Option DF
  | Except.ok d => some d
  | Except.error _ => none

/-- Claim C9: after upload the dataframe is transformed at most once, by the
optional set-date-index step: the dataframe the session holds is exactly
the date-step image of the parsed frame, independent of which test panel is
shown, of the test configurations, and of the library-call outcomes (the
panels only read the frame and test a `dropna()` copy of one column); when
the date step is skipped, not offered, or fails, the frame is unchanged. -/
theorem df_mutated_once (env : Env) (ch : MainChoices) (df0 : DF) :
    (mainFlow env ch).1 =
      Option.map (fun d => (dateIndexStep env ch.dateChoice d).1)
        (exceptToOption env.parseResult)
    ∧ ((dateCols df0).isEmpty = true → (dateIndexStep env ch.dateChoice df0).1 = df0)
    ∧ (selectChoice ch.dateChoice (dateSentinel :: dateCols df0) = dateSentinel →
        (dateIndexStep env ch.dateChoice df0).1 = df0)
    ∧ (env.dateConvRaises = true → (dateIndexStep env ch.dateChoice df0).1 = df0) := by
  refine ⟨?_, ?_, ?_, ?_⟩
  · cases hp : env.parseResult with
    | error e => simp [mainFlow, hp, exceptToOption]
    | ok d => simp [mainFlow, hp, exceptToOption]
  · intro h
    simp [dateIndexStep, h]
  · intro h
    by_cases hd : (dateCols df0).isEmpty
    · simp [dateIndexStep, hd]
    · simp only [Bool.not_eq_true] at hd
      simp [dateIndexStep, hd, h]
  · intro hr
    by_cases hd : (dateCols df0).isEmpty
    · simp [dateIndexStep, hd]
    · simp only [Bool.not_eq_true] at hd
      by_cases hs : selectChoice ch.dateChoice (dateSentinel :: dateCols df0) = dateSentinel
      · simp [dateIndexStep, hd, hs]
      · simp [dateIndexStep, hd, if_neg hs, hr]

theorem df_mutated_once_witness :
    (mainFlow envDate mainChoicesZA).1 =
      Option.map (fun d => (dateIndexStep envDate mainChoicesZA.dateChoice d).1)
        (exceptToOption envDate.parseResult)
    ∧ (dateIndexStep envDate mainChoicesZA.dateChoice df25).1 = df25 :=
  ⟨(df_mutated_once envDate mainChoicesZA df25).1,
   (df_mutated_once envDate mainChoicesZA df25).2.1 (by decide)⟩
